import Mathlib

/-!
Verification development for the resumai analysis core.

The repository ships a React frontend (src/src/components) and documents a
Python FastAPI backend that hosts the analysis pipeline (keyword matcher,
two-stage model orchestration, response validation and score aggregation).
The backend implementation file is not part of the sources here, only its
README, setup docs and the frontend callers are; following the specification,
the missing backend components are modelled from the spec text and are marked
as such in their doc comments.  Frontend behaviour (input guards, keyword
panel rendering, score-counter animation) is embedded directly from the
TypeScript sources.
-/

/-! Keyword matcher (spec section 4.1) -/

/-- Modelled from the spec: case folding used for case-insensitive keyword
comparison; lowercases every character of the string. -/
def lowerKey (s : String) : String :=
  ⟨s.data.map Char.toLower⟩

/-- Modelled from the spec: splitting of a character stream into
whitespace-separated words (accumulator-based, tail of the tokenizer). -/
def splitWords : List Char → List Char → List (List Char)
  | [], acc => if acc = [] then [] else [acc.reverse]
  | c :: cs, acc =>
    if c.isWhitespace then
      (if acc = [] then splitWords cs [] else acc.reverse :: splitWords cs [])
    else splitWords cs (c :: acc)

/-- Modelled from the spec: normalization of a word into a term --
lowercased and stripped of punctuation (only alphanumeric characters are
kept, each lowercased). -/
def normalizeWord (w : List Char) : String :=
  ⟨w.filterMap (fun c => if c.isAlphanum then some c.toLower else none)⟩

/-- Modelled from the spec: tokenizer of the Keyword Matcher -- splits a text
into normalized terms, dropping terms that normalize to the empty string. -/
def tokenize (s : String) : List String :=
  ((splitWords s.data []).map normalizeWord).filter (fun t => t ≠ "")

/-- A target job: title plus long-form description (spec section 3). -/
structure JobTarget where
  title : String
  description : String
deriving DecidableEq

/-- Relevance tier of a matched keyword. -/
inductive Relevance where
  | high
  | medium
  | low
deriving DecidableEq

/-- An entry of keywordMatches (spec section 3). -/
structure KeywordMatch where
  keyword : String
  frequency : Nat
  relevance : Relevance
deriving DecidableEq

/-- Modelled from the spec: the built-in generic best-practice keyword
baseline used when no job target is supplied (spec sections 4.1 and 9; the
concrete entries are an injected configuration table). -/
def genericKeywords : List String :=
  ["leadership", "communication", "teamwork", "management", "experience",
   "project", "team", "development", "results", "skills"]

/-- Modelled from the spec: terms extracted from the job corpus
(title plus description), deduplicated. -/
def jobCorpusTerms (j : JobTarget) : List String :=
  (tokenize j.title ++ tokenize j.description).dedup

/-- Modelled from the spec: relevance tiering -- high if the term appears in
the job title or at least three times in the description, medium if it
appears once or twice in the description, low otherwise. -/
def relevanceFor (j : JobTarget) (t : String) : Relevance :=
  if t ∈ tokenize j.title then .high
  else if 3 ≤ (tokenize j.description).count t then .high
  else if 1 ≤ (tokenize j.description).count t then .medium
  else .low

/-- Modelled from the spec: the matched-keyword half of the Keyword Matcher.
Terms of the job corpus (or of the generic baseline when no job target is
supplied) whose term frequency in the resume is positive; zero-frequency
terms are excluded, not emitted. -/
def keywordMatchesFor (resumeText : String) (job : Option JobTarget) : List KeywordMatch :=
  let rtokens := tokenize resumeText
  let corpus := match job with
    | some j => jobCorpusTerms j
    | none => genericKeywords
  (corpus.filter (fun t => decide (0 < rtokens.count t))).map
    (fun t => { keyword := t,
                frequency := rtokens.count t,
                relevance := match job with
                  | some j => relevanceFor j t
                  | none => .low })

/-- Modelled from the spec: bound on the number of reported missing keywords
(the spec caps the list at a bounded count). -/
def missingKeywordCap : Nat := 10

/-- Modelled from the spec: the missing-keyword half of the Keyword Matcher.
Job-corpus terms with resume frequency zero, ranked by job-description
frequency descending and capped; empty when no job target is supplied. -/
def missingKeywordsFor (resumeText : String) (job : Option JobTarget) : List String :=
  match job with
  | none => []
  | some j =>
    let rtokens := tokenize resumeText
    (((jobCorpusTerms j).filter (fun t => decide (rtokens.count t = 0))).mergeSort
      (fun a b =>
        decide ((tokenize j.description).count b ≤ (tokenize j.description).count a))).take
      missingKeywordCap

/-- Modelled from the spec: the Keyword Matcher -- a pure function from
resume text and optional job target to matched and missing keywords. -/
def keywordMatcher (resumeText : String) (job : Option JobTarget) :
    List KeywordMatch × List String :=
  (keywordMatchesFor resumeText job, missingKeywordsFor resumeText job)

/-! Structured analysis data model (spec section 3) -/

/-- Category of a section of the analysis (fixed enumeration). -/
inductive Category where
  | format
  | content
  | keywords
  | impact
deriving DecidableEq

/-- One entry of the sections list of a structured analysis. -/
structure AnalysisSection where
  name : String
  score : Int
  feedback : String
  category : Category
deriving DecidableEq

/-- Priority of a recommendation. -/
inductive Priority where
  | high
  | medium
  | low
deriving DecidableEq

/-- One entry of the recommendations list. -/
structure Recommendation where
  priority : Priority
  title : String
  description : String
deriving DecidableEq

/-- The canonical StructuredAnalysis output (spec section 3).  Score fields
are integers; the optional job-match fields are present when a job target
was supplied. -/
structure StructuredAnalysis where
  overallScore : Int
  atsCompatibilityScore : Int
  personalizedAdvice : String
  sections : List AnalysisSection
  strengths : List String
  improvements : List String
  keywordMatches : List KeywordMatch
  missingKeywords : List String
  recommendations : List Recommendation
  matchPercentage : Option Int
  hirabilityScore : Option Int
  matchAnalysis : Option String
deriving DecidableEq, Inhabited

/-! Response validation, clamping and score aggregation
(spec sections 4.4 and 4.6) -/

/-- Modelled from the spec: clamping of a numeric score into the range
0 to 100 (out-of-range values are clamped, not rejected). -/
def clampScore (n : Int) : Int := max 0 (min n 100)

/-- Modelled from the spec: clamping applied to every score field of a
structured analysis by the Response Validator. -/
def clampAnalysis (a : StructuredAnalysis) : StructuredAnalysis :=
  { a with
    overallScore := clampScore a.overallScore
    atsCompatibilityScore := clampScore a.atsCompatibilityScore
    sections := a.sections.map (fun s => { s with score := clampScore s.score })
    matchPercentage := a.matchPercentage.map clampScore
    hirabilityScore := a.hirabilityScore.map clampScore }

/-- Modelled from the spec: fixed per-category weights of the Score
Aggregator (spec section 4.6; section 9 leaves the exact constants open, so
a fixed default table is used). -/
def categoryWeight : Category → Int
  | .format => 25
  | .content => 30
  | .keywords => 25
  | .impact => 20

/-- Modelled from the spec: the category-weighted function of section scores
against which the model-reported overall score is checked. -/
def sectionWeightedScore (sections : List AnalysisSection) : Int :=
  if (sections.map (fun s => categoryWeight s.category)).sum = 0 then 0
  else (sections.map (fun s => categoryWeight s.category * s.score)).sum /
    (sections.map (fun s => categoryWeight s.category)).sum

/-- Modelled from the spec: tolerance (in points) allowed between the
model-reported overall score and the section-derived value. -/
def tolerance : Nat := 15

/-- Modelled from the spec: the Score Aggregator -- recomputes overallScore
as the category-weighted function of section scores when the model-reported
value deviates from it by more than the tolerance. -/
def aggregate (a : StructuredAnalysis) : StructuredAnalysis :=
  if a.sections = [] then a
  else
    if tolerance < (a.overallScore - sectionWeightedScore a.sections).natAbs then
      { a with overallScore := sectionWeightedScore a.sections }
    else a

/-- Modelled from the spec: stable bucket ordering of recommendations by
priority descending (high entries first, then medium, then low), as required
of every produced recommendations list (spec section 3). -/
def sortRecommendations (l : List Recommendation) : List Recommendation :=
  l.filter (fun r => decide (r.priority = .high)) ++
  l.filter (fun r => decide (r.priority = .medium)) ++
  l.filter (fun r => decide (r.priority = .low))

/-- Modelled from the spec: validation of a parsed model response for one
stage -- numeric fields are clamped into range (never rejected),
recommendations are put in priority-descending order, and the overall score
is reconciled with the section sub-scores. -/
def validateStage (raw : StructuredAnalysis) : StructuredAnalysis :=
  aggregate
    { clampAnalysis raw with
      recommendations := sortRecommendations (clampAnalysis raw).recommendations }

/-! Two-stage orchestrator (spec sections 4.5, 6 and 7) -/

/-- Failure of one model stage after the bounded retry and repair policy has
been exhausted. -/
inductive StageFailure where
  | modelUnavailable
  | modelTimeout
  | modelRateLimited
  | formatError
deriving DecidableEq

/-- Typed failure of a whole analysis request (spec section 7). -/
inductive AnalysisError where
  | invalidInput
  | analysisUnavailable
  | analysisFormatError
deriving DecidableEq

/-- Modelled from the spec: mapping of an exhausted stage-1 failure onto the
error surfaced to the caller -- transient provider failures become
analysisUnavailable, format failures stay format errors. -/
def stage1Error : StageFailure → AnalysisError
  | .modelUnavailable => .analysisUnavailable
  | .modelTimeout => .analysisUnavailable
  | .modelRateLimited => .analysisUnavailable
  | .formatError => .analysisFormatError

/-- Outcome of the two model stages as seen after retries and repair: the
oracle abstracts the non-deterministic external model provider. -/
structure ModelOracle where
  stage1 : Except StageFailure StructuredAnalysis
  stage2 : Except StageFailure StructuredAnalysis

/-- An analysis request: resume text plus optional job title and optional
job description (spec sections 3 and 6). -/
structure AnalysisRequest where
  resumeText : String
  jobTitle : Option String
  jobDescription : Option String
deriving DecidableEq

/-- The job target carried by a request: absent when neither job title nor
job description was supplied. -/
def AnalysisRequest.jobTarget (r : AnalysisRequest) : Option JobTarget :=
  match r.jobTitle, r.jobDescription with
  | none, none => none
  | t, d => some { title := t.getD "", description := d.getD "" }

/-- Empty-or-whitespace-only test on a string, used by the fail-fast input
guard (spec section 7) and by the client-side guard in
src/src/components/job-matcher.tsx where the JavaScript test is on the
trimmed string being empty. -/
def isBlank (s : String) : Bool := s.data.all Char.isWhitespace

/-- Modelled from the spec: stage-2 refinement merge -- stage 2 refines
prose fields (advice, section feedback, strengths, improvements,
recommendations, match narrative) onto the stage-1 structure without
altering numeric scores or structural shape. -/
def mergeStage2 (s1 s2 : StructuredAnalysis) : StructuredAnalysis :=
  { s1 with
    personalizedAdvice := s2.personalizedAdvice
    strengths := s2.strengths
    improvements := s2.improvements
    recommendations := s2.recommendations
    matchAnalysis := s2.matchAnalysis
    sections :=
      if s2.sections.length = s1.sections.length then
        List.zipWith (fun a b => { a with feedback := b.feedback }) s1.sections s2.sections
      else s1.sections }

/-- Modelled from the spec: the orchestrator merges Keyword Matcher output
into whichever result becomes final, overwriting any model-produced keyword
fields (the deterministic matcher is authoritative). -/
def mergeKeywordData (a : StructuredAnalysis) (kw : List KeywordMatch × List String) :
    StructuredAnalysis :=
  { a with keywordMatches := kw.1, missingKeywords := kw.2 }

/-- Modelled from the spec: the two-stage analysis pipeline.  Blank input is
rejected before any model call; a stage-1 failure fails the request; a
stage-2 failure falls back to the validated stage-1 result; keyword data is
merged into whichever result becomes final.  The second component counts
how many requests reached the model adapter. -/
def runAnalysis (req : AnalysisRequest) (o : ModelOracle) :
    Except AnalysisError StructuredAnalysis × Nat :=
  if isBlank req.resumeText then (.error .invalidInput, 0)
  else
    let kw := keywordMatcher req.resumeText req.jobTarget
    match o.stage1 with
    | .error f => (.error (stage1Error f), 1)
    | .ok raw1 =>
      let s1 := validateStage raw1
      match o.stage2 with
      | .error _ => (.ok (mergeKeywordData s1 kw), 2)
      | .ok raw2 => (.ok (mergeKeywordData (mergeStage2 s1 (validateStage raw2)) kw), 2)

/-! Frontend embeddings (src/src/components) -/

/-- A file selected for upload in the client (only identity matters for the
control flow embedded here). -/
structure ResumeFile where
  name : String
deriving DecidableEq

/-- Observable outcome of one invocation of the client-side analyze handler:
either an error message is set and no network request is made, or a request
is posted to the backend. -/
inductive ClientStep where
  | setErr (msg : String)
  | request (jobDescription : String) (file : ResumeFile)
deriving DecidableEq

/-- Embedded from src/src/components/job-matcher.tsx, handleAnalyze
(lines 50 to 68): a blank job description or an absent resume file sets an
error and returns before the fetch; otherwise the match request is posted. -/
def handleAnalyze (jobDescription : String) (resumeFile : Option ResumeFile) : ClientStep :=
  if isBlank jobDescription then .setErr "Please enter a job description"
  else
    match resumeFile with
    | none => .setErr "Please upload a resume"
    | some f => .request jobDescription f

/-- Whether a client step performs a network request. -/
def ClientStep.isNetworkRequest : ClientStep → Bool
  | .setErr _ => false
  | .request _ _ => true

/-- The error message set by a client step, if any. -/
def ClientStep.errorMessage : ClientStep → Option String
  | .setErr m => some m
  | .request _ _ => none

/-- Embedded from src/src/components/analysis-result.tsx (lines 485 to 512)
and src/unnamed/part_006 (lines 174 to 189): the Top Keywords Found panel is
rendered only when keywordMatches is present and non-empty, and then shows
the slice of the first twelve entries. -/
def topKeywordsPanel (km : Option (List KeywordMatch)) : Option (List KeywordMatch) :=
  match km with
  | none => none
  | some l => if 0 < l.length then some (l.take 12) else none

/-- Embedded from src/src/components/analysis-result.tsx (lines 79 to 115)
and src/src/components/job-matcher-result.tsx (lines 53 to 78): one timer
tick of the animated score counter -- once the displayed value has reached
the target score it stays, otherwise it advances by two, capped at the
target. -/
def animTick (target prev : Nat) : Nat :=
  if target ≤ prev then prev else min (prev + 2) target

/-- The sequence of displayed values of the animated score counter, starting
at zero and applying one tick per step. -/
def animSeq (target : Nat) : Nat → Nat
  | 0 => 0
  | n + 1 => animTick target (animSeq target n)

/-! Derived notions and concrete sample inputs used by the theorems -/

/-- A score value lies in the inclusive range 0 to 100. -/
def scoreInRange (n : Int) : Prop := 0 ≤ n ∧ n ≤ 100

/-- All score fields of a structured analysis lie in 0 to 100: the overall
score, the ATS compatibility score, every section score, and the job-match
percentage and hirability score when present. -/
def ScoresInRange (a : StructuredAnalysis) : Prop :=
  scoreInRange a.overallScore ∧
  scoreInRange a.atsCompatibilityScore ∧
  (∀ s ∈ a.sections, scoreInRange s.score) ∧
  (∀ x ∈ a.matchPercentage, scoreInRange x) ∧
  (∀ x ∈ a.hirabilityScore, scoreInRange x)

/-- Numeric rank of a priority, used to state priority-descending order. -/
def priorityRank : Priority → Nat
  | .high => 2
  | .medium => 1
  | .low => 0

/-- The structured analysis carried by a successful pipeline outcome (the
default value in the error case, which the theorems never reach). -/
def resultOf (req : AnalysisRequest) (o : ModelOracle) : StructuredAnalysis :=
  match (runAnalysis req o).1 with
  | .ok r => r
  | .error _ => default

/-- Sample parsed stage response: balanced scores, one section, two
recommendations listed in ascending priority order. -/
def sampleAnalysis : StructuredAnalysis :=
  { overallScore := 50
    atsCompatibilityScore := 55
    personalizedAdvice := "advice"
    sections := [{ name := "Format", score := 50, feedback := "ok", category := .format },
                 { name := "Content", score := 50, feedback := "ok", category := .content }]
    strengths := ["clear layout"]
    improvements := ["add metrics"]
    keywordMatches := []
    missingKeywords := []
    recommendations := [{ priority := .low, title := "t1", description := "d1" },
                        { priority := .high, title := "t2", description := "d2" }]
    matchPercentage := none
    hirabilityScore := none
    matchAnalysis := none }

/-- Sample parsed stage response with out-of-range numeric fields, used to
exercise clamping. -/
def outOfRangeAnalysis : StructuredAnalysis :=
  { sampleAnalysis with
    overallScore := 150
    atsCompatibilityScore := -5
    sections := [{ name := "Format", score := 240, feedback := "ok", category := .format }]
    matchPercentage := some 130
    hirabilityScore := some (-20) }

/-- Sample parsed stage response whose model-reported overall score deviates
from the section-derived value by more than the tolerance. -/
def deviantAnalysis : StructuredAnalysis :=
  { sampleAnalysis with
    overallScore := 90
    sections := [{ name := "Format", score := 20, feedback := "ok", category := .format }] }

/-- Oracle on which both stages succeed. -/
def sampleOracle : ModelOracle :=
  { stage1 := .ok sampleAnalysis, stage2 := .ok sampleAnalysis }

/-- Oracle on which stage 2 fails after retries. -/
def stage2FailOracle : ModelOracle :=
  { stage1 := .ok sampleAnalysis, stage2 := .error .modelUnavailable }

/-- Oracle whose stage-1 response carries out-of-range numeric fields. -/
def outOfRangeOracle : ModelOracle :=
  { stage1 := .ok outOfRangeAnalysis, stage2 := .error .formatError }

/-- Sample request without a job target. -/
def genericRequest : AnalysisRequest :=
  { resumeText := "strong teamwork and communication skills", jobTitle := none,
    jobDescription := none }

/-- Sample request with a job target. -/
def jobRequest : AnalysisRequest :=
  { resumeText := "wrote python services and led a team",
    jobTitle := some "Python Developer",
    jobDescription := some "python experience and leadership required, python preferred" }

/-- Sample keyword-match entry for the frontend panel theorems. -/
def kmSample : KeywordMatch :=
  { keyword := "python", frequency := 2, relevance := .high }

/-! Theorems -/

lemma animSeq_eq (t n : Nat) : animSeq t n = min (2 * n) t := by
  induction n with
  | zero => simp [animSeq]
  | succ n ih =>
    rw [animSeq, animTick, ih]
    split
    · omega
    · omega

/-- C10: the animated score counters start at zero, each tick applies the
update prev to min (prev + 2) target once the target is not yet reached, and
the displayed sequence is non-decreasing, never exceeds the target score,
and eventually equals it exactly. -/
theorem anim_counter_monotone_bounded_reaches (target : Nat) :
    animSeq target 0 = 0 ∧
    (∀ n, animSeq target n ≤ animSeq target (n + 1)) ∧
    (∀ n, animSeq target n ≤ target) ∧
    (∃ n, animSeq target n = target) := by
  refine ⟨rfl, fun n => ?_, fun n => ?_, ⟨target, ?_⟩⟩
  · rw [animSeq_eq, animSeq_eq]
    omega
  · rw [animSeq_eq]
    omega
  · rw [animSeq_eq]
    omega

/-- C9: the Top Keywords Found panel is omitted when the keyword list is
absent or empty, and otherwise renders exactly the first min (12, length)
entries of the list in their original order (the take-12 prefix). -/
theorem top_keywords_panel_bounded (l : List KeywordMatch) :
    topKeywordsPanel none = none ∧
    topKeywordsPanel (some []) = none ∧
    (l ≠ [] →
      topKeywordsPanel (some l) = some (l.take 12) ∧
      (l.take 12).length = min 12 l.length ∧
      l.take 12 ++ l.drop 12 = l) := by
  refine ⟨rfl, rfl, fun hl => ⟨?_, ?_, ?_⟩⟩
  · simp only [topKeywordsPanel]
    rw [if_pos (List.length_pos.2 hl)]
  · simp
  · exact List.take_append_drop 12 l

/-- Witness for C9 at a concrete one-element keyword list. -/
theorem top_keywords_panel_bounded_witness :
    topKeywordsPanel (some [kmSample]) = some ([kmSample].take 12) ∧
    ([kmSample].take 12).length = min 12 [kmSample].length ∧
    [kmSample].take 12 ++ [kmSample].drop 12 = [kmSample] :=
  (top_keywords_panel_bounded [kmSample]).2.2 (by decide)

/-- C4: an empty or whitespace-only resume text makes the pipeline fail with
invalidInput while zero calls reach the model adapter; and in the shipped
client, a blank job description or an absent uploaded file makes the analyze
handler set an error message and perform no network request. -/
theorem blank_input_rejected_before_model_call :
    (∀ (req : AnalysisRequest) (o : ModelOracle),
      isBlank req.resumeText = true →
        runAnalysis req o = (.error .invalidInput, 0)) ∧
    (∀ (jd : String) (f : Option ResumeFile),
      isBlank jd = true ∨ f = none →
        (handleAnalyze jd f).isNetworkRequest = false ∧
        (handleAnalyze jd f).errorMessage ≠ none) := by
  constructor
  · intro req o h
    simp [runAnalysis, h]
  · intro jd f h
    rcases h with h | h
    · simp [handleAnalyze, h, ClientStep.isNetworkRequest, ClientStep.errorMessage]
    · subst h
      by_cases hb : isBlank jd <;>
        simp [handleAnalyze, hb, ClientStep.isNetworkRequest, ClientStep.errorMessage]

/-- Witness for C4: a whitespace-only resume and a blank client form at
concrete inputs. -/
theorem blank_input_rejected_before_model_call_witness :
    runAnalysis { resumeText := "   ", jobTitle := none, jobDescription := none }
      sampleOracle = (.error .invalidInput, 0) ∧
    (handleAnalyze "" none).isNetworkRequest = false ∧
    (handleAnalyze "" none).errorMessage ≠ none :=
  ⟨blank_input_rejected_before_model_call.1
      { resumeText := "   ", jobTitle := none, jobDescription := none }
      sampleOracle (by decide),
   blank_input_rejected_before_model_call.2 "" none (Or.inl (by decide))⟩

lemma runAnalysis_stage2_error {req : AnalysisRequest} {o : ModelOracle}
    {raw1 : StructuredAnalysis} {f : StageFailure}
    (hres : isBlank req.resumeText = false)
    (h1 : o.stage1 = .ok raw1) (h2 : o.stage2 = .error f) :
    runAnalysis req o =
      (.ok (mergeKeywordData (validateStage raw1)
          (keywordMatcher req.resumeText req.jobTarget)), 2) := by
  unfold runAnalysis
  rw [if_neg (by simp [hres]), h1, h2]

lemma runAnalysis_stage2_ok {req : AnalysisRequest} {o : ModelOracle}
    {raw1 raw2 : StructuredAnalysis}
    (hres : isBlank req.resumeText = false)
    (h1 : o.stage1 = .ok raw1) (h2 : o.stage2 = .ok raw2) :
    runAnalysis req o =
      (.ok (mergeKeywordData (mergeStage2 (validateStage raw1) (validateStage raw2))
          (keywordMatcher req.resumeText req.jobTarget)), 2) := by
  unfold runAnalysis
  rw [if_neg (by simp [hres]), h1, h2]

lemma runAnalysis_ok_shape {req : AnalysisRequest} {o : ModelOracle}
    {r : StructuredAnalysis} (h : (runAnalysis req o).1 = .ok r) :
    ∃ raw1, o.stage1 = .ok raw1 ∧
      (r = mergeKeywordData (validateStage raw1)
            (keywordMatcher req.resumeText req.jobTarget) ∨
       ∃ raw2, o.stage2 = .ok raw2 ∧
         r = mergeKeywordData
               (mergeStage2 (validateStage raw1) (validateStage raw2))
               (keywordMatcher req.resumeText req.jobTarget)) := by
  by_cases hb : isBlank req.resumeText
  · unfold runAnalysis at h
    rw [if_pos hb] at h
    simp at h
  · cases h1 : o.stage1 with
    | error f =>
      unfold runAnalysis at h
      rw [if_neg (by simp [hb]), h1] at h
      simp at h
    | ok raw1 =>
      cases h2 : o.stage2 with
      | error f =>
        rw [runAnalysis_stage2_error (by simpa using hb) h1 h2] at h
        simp at h
        exact ⟨raw1, rfl, Or.inl h.symm⟩
      | ok raw2 =>
        rw [runAnalysis_stage2_ok (by simpa using hb) h1 h2] at h
        simp at h
        exact ⟨raw1, rfl, Or.inr ⟨raw2, rfl, h.symm⟩⟩

lemma runAnalysis_ok_keywords {req : AnalysisRequest} {o : ModelOracle}
    {r : StructuredAnalysis} (h : (runAnalysis req o).1 = .ok r) :
    r.keywordMatches = keywordMatchesFor req.resumeText req.jobTarget ∧
    r.missingKeywords = missingKeywordsFor req.resumeText req.jobTarget := by
  obtain ⟨raw1, -, hcase⟩ := runAnalysis_ok_shape h
  rcases hcase with rfl | ⟨raw2, -, rfl⟩ <;> exact ⟨rfl, rfl⟩

/-- C2: whenever stage 2 fails after retries, the pipeline still succeeds
and the final result is exactly the validated stage-1 result merged with the
deterministic Keyword Matcher output. -/
theorem stage2_failure_falls_back_to_stage1 (req : AnalysisRequest) (o : ModelOracle)
    (raw1 : StructuredAnalysis) (f : StageFailure)
    (hres : isBlank req.resumeText = false)
    (h1 : o.stage1 = .ok raw1) (h2 : o.stage2 = .error f) :
    runAnalysis req o =
      (.ok (mergeKeywordData (validateStage raw1)
          (keywordMatcher req.resumeText req.jobTarget)), 2) :=
  runAnalysis_stage2_error hres h1 h2

/-- Witness for C2 at a concrete request and an oracle whose stage 2 fails. -/
theorem stage2_failure_falls_back_to_stage1_witness :
    runAnalysis genericRequest stage2FailOracle =
      (.ok (mergeKeywordData (validateStage sampleAnalysis)
          (keywordMatcher genericRequest.resumeText genericRequest.jobTarget)), 2) :=
  stage2_failure_falls_back_to_stage1 genericRequest stage2FailOracle sampleAnalysis
    .modelUnavailable (by decide) rfl rfl

/-- C5: the Keyword Matcher is pure and deterministic -- two pipeline runs
on requests with identical resume text and identical job target produce
identical keywordMatches and identical missingKeywords, whatever the model
oracle does on either run. -/
theorem keyword_matcher_deterministic (req req' : AnalysisRequest)
    (o o' : ModelOracle) (r r' : StructuredAnalysis)
    (hrt : req.resumeText = req'.resumeText)
    (hjob : req.jobTarget = req'.jobTarget)
    (h : (runAnalysis req o).1 = .ok r)
    (h' : (runAnalysis req' o').1 = .ok r') :
    r.keywordMatches = r'.keywordMatches ∧
    r.missingKeywords = r'.missingKeywords := by
  obtain ⟨hk, hm⟩ := runAnalysis_ok_keywords h
  obtain ⟨hk', hm'⟩ := runAnalysis_ok_keywords h'
  rw [hk, hk', hm, hm', hrt, hjob]
  exact ⟨rfl, rfl⟩

/-- Witness for C5: the same request analyzed under two different oracles
yields the same keyword data. -/
theorem keyword_matcher_deterministic_witness :
    (resultOf genericRequest sampleOracle).keywordMatches =
      (resultOf genericRequest stage2FailOracle).keywordMatches ∧
    (resultOf genericRequest sampleOracle).missingKeywords =
      (resultOf genericRequest stage2FailOracle).missingKeywords :=
  keyword_matcher_deterministic genericRequest genericRequest sampleOracle stage2FailOracle
    (resultOf genericRequest sampleOracle) (resultOf genericRequest stage2FailOracle)
    rfl rfl rfl rfl

/-- C7: a request with non-empty resume text and no job target supplied is
not rejected -- the pipeline still succeeds (for any oracle whose stage 1
validates) and produces a generic analysis whose keyword matches come from
the built-in generic keyword baseline, with no missing keywords. -/
theorem optional_job_target_generic_analysis (req : AnalysisRequest) (o : ModelOracle)
    (raw1 : StructuredAnalysis)
    (hres : isBlank req.resumeText = false)
    (ht : req.jobTitle = none) (hd : req.jobDescription = none)
    (h1 : o.stage1 = .ok raw1) :
    ∃ r, (runAnalysis req o).1 = .ok r ∧
      r.keywordMatches = keywordMatchesFor req.resumeText none ∧
      r.missingKeywords = [] ∧
      ∀ m ∈ r.keywordMatches, m.keyword ∈ genericKeywords := by
  have hjt : req.jobTarget = none := by
    unfold AnalysisRequest.jobTarget
    rw [ht, hd]
  have hrun : ∃ r, (runAnalysis req o).1 = .ok r := by
    cases h2 : o.stage2 with
    | error f => exact ⟨_, by rw [runAnalysis_stage2_error hres h1 h2]⟩
    | ok raw2 => exact ⟨_, by rw [runAnalysis_stage2_ok hres h1 h2]⟩
  obtain ⟨r, hr⟩ := hrun
  obtain ⟨hk, hm⟩ := runAnalysis_ok_keywords hr
  rw [hjt] at hk hm
  refine ⟨r, hr, hk, hm, ?_⟩
  intro m hmem
  rw [hk] at hmem
  unfold keywordMatchesFor at hmem
  obtain ⟨t, htf, rfl⟩ := List.mem_map.1 hmem
  exact List.mem_of_mem_filter htf

/-- Witness for C7 at a concrete job-target-free request. -/
theorem optional_job_target_generic_analysis_witness :
    ∃ r, (runAnalysis genericRequest sampleOracle).1 = .ok r ∧
      r.keywordMatches = keywordMatchesFor genericRequest.resumeText none ∧
      r.missingKeywords = [] ∧
      ∀ m ∈ r.keywordMatches, m.keyword ∈ genericKeywords :=
  optional_job_target_generic_analysis genericRequest sampleOracle sampleAnalysis
    (by decide) rfl rfl rfl

/-- C6: after aggregation the overall score never deviates from the
section-weighted score by more than the configured tolerance, and whenever
the model-reported overall score deviates by more than the tolerance the
aggregator recomputes it as exactly the category-weighted value. -/
theorem score_aggregator_within_tolerance (a : StructuredAnalysis)
    (hs : a.sections ≠ []) :
    ((aggregate a).overallScore -
        sectionWeightedScore (aggregate a).sections).natAbs ≤ tolerance ∧
    (tolerance < (a.overallScore - sectionWeightedScore a.sections).natAbs →
      (aggregate a).overallScore = sectionWeightedScore a.sections) := by
  unfold aggregate
  rw [if_neg hs]
  by_cases h : tolerance < (a.overallScore - sectionWeightedScore a.sections).natAbs
  · rw [if_pos h]
    refine ⟨?_, fun _ => rfl⟩
    simp
  · rw [if_neg h]
    exact ⟨Nat.le_of_not_lt h, fun hc => absurd hc h⟩

/-- Witness for C6 at a concrete result whose model-reported overall score
deviates from the section-derived value by 70 points. -/
theorem score_aggregator_within_tolerance_witness :
    ((aggregate deviantAnalysis).overallScore -
        sectionWeightedScore (aggregate deviantAnalysis).sections).natAbs ≤ tolerance ∧
    (tolerance < (deviantAnalysis.overallScore -
        sectionWeightedScore deviantAnalysis.sections).natAbs →
      (aggregate deviantAnalysis).overallScore =
        sectionWeightedScore deviantAnalysis.sections) :=
  score_aggregator_within_tolerance deviantAnalysis (by decide)

lemma clampScore_inRange (n : Int) : scoreInRange (clampScore n) := by
  unfold scoreInRange clampScore
  omega

lemma clampAnalysis_inRange (a : StructuredAnalysis) :
    ScoresInRange (clampAnalysis a) := by
  refine ⟨clampScore_inRange _, clampScore_inRange _, ?_, ?_, ?_⟩
  · intro s hs
    obtain ⟨s0, -, rfl⟩ := List.mem_map.1 hs
    exact clampScore_inRange _
  · intro x hx
    obtain ⟨y, -, rfl⟩ := Option.map_eq_some'.1 hx
    exact clampScore_inRange _
  · intro x hx
    obtain ⟨y, -, rfl⟩ := Option.map_eq_some'.1 hx
    exact clampScore_inRange _

lemma categoryWeight_pos (c : Category) : (0 : Int) < categoryWeight c := by
  cases c <;> decide

lemma sectionWeightedScore_inRange (l : List AnalysisSection)
    (h : ∀ s ∈ l, scoreInRange s.score) :
    scoreInRange (sectionWeightedScore l) := by
  unfold sectionWeightedScore
  by_cases h0 : (l.map fun s => categoryWeight s.category).sum = 0
  · rw [if_pos h0]
    exact ⟨le_refl 0, by norm_num⟩
  · rw [if_neg h0]
    have hnn : 0 ≤ (l.map fun s => categoryWeight s.category).sum := by
      apply List.sum_nonneg
      intro x hx
      obtain ⟨s, -, rfl⟩ := List.mem_map.1 hx
      exact le_of_lt (categoryWeight_pos _)
    have hnum0 : 0 ≤ (l.map fun s => categoryWeight s.category * s.score).sum := by
      apply List.sum_nonneg
      intro x hx
      obtain ⟨s, hs, rfl⟩ := List.mem_map.1 hx
      exact mul_nonneg (le_of_lt (categoryWeight_pos _)) (h s hs).1
    have htwpos : 0 < (l.map fun s => categoryWeight s.category).sum :=
      lt_of_le_of_ne hnn (Ne.symm h0)
    have hle : (l.map fun s => categoryWeight s.category * s.score).sum ≤
        100 * (l.map fun s => categoryWeight s.category).sum := by
      have h1 : (l.map fun s => categoryWeight s.category * s.score).sum ≤
          (l.map fun s => categoryWeight s.category * 100).sum :=
        List.sum_le_sum fun s hs =>
          mul_le_mul_of_nonneg_left (h s hs).2 (le_of_lt (categoryWeight_pos _))
      have h2 : (l.map fun s => categoryWeight s.category * 100).sum =
          (l.map fun s => categoryWeight s.category).sum * 100 :=
        List.sum_map_mul_right l (fun s => categoryWeight s.category) 100
      rw [h2] at h1
      calc (l.map fun s => categoryWeight s.category * s.score).sum ≤
            (l.map fun s => categoryWeight s.category).sum * 100 := h1
        _ = 100 * (l.map fun s => categoryWeight s.category).sum := mul_comm _ _
    constructor
    · exact Int.ediv_nonneg hnum0 hnn
    · have h3 := Int.ediv_le_ediv htwpos hle
      rwa [Int.mul_ediv_cancel 100 h0] at h3

lemma aggregate_inRange {a : StructuredAnalysis} (h : ScoresInRange a) :
    ScoresInRange (aggregate a) := by
  unfold aggregate
  split
  · exact h
  · split
    · obtain ⟨h1, h2, h3, h4, h5⟩ := h
      exact ⟨sectionWeightedScore_inRange _ h3, h2, h3, h4, h5⟩
    · exact h

lemma validateStage_inRange (raw : StructuredAnalysis) :
    ScoresInRange (validateStage raw) := by
  unfold validateStage
  apply aggregate_inRange
  obtain ⟨h1, h2, h3, h4, h5⟩ := clampAnalysis_inRange raw
  exact ⟨h1, h2, h3, h4, h5⟩

lemma zipWith_feedback_scoreInRange {l1 l2 : List AnalysisSection}
    (h : ∀ s ∈ l1, scoreInRange s.score) :
    ∀ s ∈ List.zipWith (fun a b => { a with feedback := b.feedback }) l1 l2,
      scoreInRange s.score := by
  induction l1 generalizing l2 with
  | nil =>
    intro s hs
    simp at hs
  | cons a l ih =>
    cases l2 with
    | nil =>
      intro s hs
      simp at hs
    | cons b l2 =>
      intro s hs
      rw [List.zipWith_cons_cons] at hs
      rcases List.mem_cons.1 hs with rfl | hs'
      · exact h a (List.mem_cons_self _ _)
      · exact ih (fun s hs => h s (List.mem_cons_of_mem _ hs)) s hs'

lemma mergeStage2_inRange {s1 s2 : StructuredAnalysis} (h : ScoresInRange s1) :
    ScoresInRange (mergeStage2 s1 s2) := by
  obtain ⟨h1, h2, h3, h4, h5⟩ := h
  refine ⟨h1, h2, ?_, h4, h5⟩
  show ∀ s ∈ (mergeStage2 s1 s2).sections, scoreInRange s.score
  unfold mergeStage2
  split
  · exact zipWith_feedback_scoreInRange h3
  · exact h3

lemma mergeKeywordData_inRange {a : StructuredAnalysis}
    {kw : List KeywordMatch × List String} (h : ScoresInRange a) :
    ScoresInRange (mergeKeywordData a kw) := h

/-- C1: every structured analysis the pipeline returns has all its score
fields (overall, ATS compatibility, every section score, match percentage
and hirability score when present) in the integer range 0 to 100; moreover
a stage response whose numeric fields arrive outside that range is still
validated -- its scores are clamped into range rather than the response
being rejected. -/
theorem scores_clamped_into_range :
    (∀ (req : AnalysisRequest) (o : ModelOracle) (r : StructuredAnalysis),
        (runAnalysis req o).1 = .ok r → ScoresInRange r) ∧
    (∀ raw : StructuredAnalysis, ScoresInRange (validateStage raw)) := by
  constructor
  · intro req o r h
    obtain ⟨raw1, -, hcase⟩ := runAnalysis_ok_shape h
    rcases hcase with rfl | ⟨raw2, -, rfl⟩
    · exact mergeKeywordData_inRange (validateStage_inRange raw1)
    · exact mergeKeywordData_inRange (mergeStage2_inRange (validateStage_inRange raw1))
  · exact validateStage_inRange

/-- Witness for C1 at a run whose stage-1 response has scores 150, -5, 240,
130 and -20: the request still succeeds and all scores land in range. -/
theorem scores_clamped_into_range_witness :
    ScoresInRange (resultOf genericRequest outOfRangeOracle) ∧
    ScoresInRange (validateStage outOfRangeAnalysis) :=
  ⟨scores_clamped_into_range.1 genericRequest outOfRangeOracle
      (resultOf genericRequest outOfRangeOracle) rfl,
   scores_clamped_into_range.2 outOfRangeAnalysis⟩

lemma toLower_toLower (c : Char) : c.toLower.toLower = c.toLower := by
  have key : ∀ n, Nat.isValidChar n → (Char.ofNat n).toNat = n := by
    intro n h
    rw [Char.ofNat, dif_pos h]
    simp [Char.ofNatAux, Char.toNat, UInt32.toNat, BitVec.toNat_ofNatLt]
  by_cases h : 65 ≤ c.toNat ∧ c.toNat ≤ 90
  · have h1 : c.toLower = Char.ofNat (c.toNat + 32) := by
      unfold Char.toLower
      rw [if_pos ⟨h.1, h.2⟩]
    have h2 : (Char.ofNat (c.toNat + 32)).toNat = c.toNat + 32 :=
      key _ (Or.inl (by omega))
    rw [h1]
    unfold Char.toLower
    rw [h2, if_neg (by omega)]
  · have h1 : c.toLower = c := by
      unfold Char.toLower
      rw [if_neg (fun hc => h ⟨hc.1, hc.2⟩)]
    rw [h1]
    exact h1

lemma lowerKey_normalizeWord (w : List Char) :
    lowerKey (normalizeWord w) = normalizeWord w := by
  show String.mk
      ((w.filterMap fun c => if c.isAlphanum then some c.toLower else none).map
        Char.toLower) =
    String.mk (w.filterMap fun c => if c.isAlphanum then some c.toLower else none)
  congr 1
  induction w with
  | nil => rfl
  | cons c cs ih =>
    by_cases hc : c.isAlphanum
    · simp [List.filterMap_cons, hc, toLower_toLower, ih]
    · simp [List.filterMap_cons, hc, ih]

lemma mem_tokenize_normalized {s t : String} (h : t ∈ tokenize s) :
    lowerKey t = t := by
  unfold tokenize at h
  obtain ⟨w, -, rfl⟩ := List.mem_map.1 (List.mem_of_mem_filter h)
  exact lowerKey_normalizeWord w

lemma corpus_nodup (job : Option JobTarget) :
    (match job with
      | some j => jobCorpusTerms j
      | none => genericKeywords).Nodup := by
  cases job with
  | none => decide
  | some j => exact List.nodup_dedup _

lemma corpus_lowerKey_fixed (job : Option JobTarget) :
    ∀ t ∈ (match job with
      | some j => jobCorpusTerms j
      | none => genericKeywords), lowerKey t = t := by
  cases job with
  | none => decide
  | some j =>
    intro t ht
    unfold jobCorpusTerms at ht
    rcases List.mem_append.1 (List.mem_dedup.1 ht) with h | h
    · exact mem_tokenize_normalized h
    · exact mem_tokenize_normalized h

lemma mem_keywordMatchesFor {resumeText : String} {job : Option JobTarget}
    {m : KeywordMatch} (h : m ∈ keywordMatchesFor resumeText job) :
    m.keyword ∈ (match job with
      | some j => jobCorpusTerms j
      | none => genericKeywords) ∧
    m.frequency = (tokenize resumeText).count m.keyword ∧
    0 < (tokenize resumeText).count m.keyword := by
  unfold keywordMatchesFor at h
  obtain ⟨t, htf, rfl⟩ := List.mem_map.1 h
  exact ⟨List.mem_of_mem_filter htf,
    rfl,
    of_decide_eq_true (List.mem_filter.1 htf).2⟩

lemma keywordMatchesFor_map_keyword (resumeText : String) (job : Option JobTarget) :
    (keywordMatchesFor resumeText job).map (fun m => m.keyword) =
      (match job with
        | some j => jobCorpusTerms j
        | none => genericKeywords).filter
        (fun t => decide (0 < (tokenize resumeText).count t)) := by
  unfold keywordMatchesFor
  rw [List.map_map]
  exact List.map_id _

lemma mem_missingKeywordsFor {resumeText k : String} {j : JobTarget}
    (h : k ∈ missingKeywordsFor resumeText (some j)) :
    k ∈ jobCorpusTerms j ∧ (tokenize resumeText).count k = 0 := by
  unfold missingKeywordsFor at h
  have h1 := List.mem_of_mem_take h
  rw [List.mem_mergeSort] at h1
  exact ⟨List.mem_of_mem_filter h1,
    of_decide_eq_true (List.mem_filter.1 h1).2⟩

/-- C3: in every produced result, every keywordMatches entry has frequency
at least one, the keywordMatches list is deduplicated by keyword
case-insensitively, and no keyword occurs both as a match and as a missing
keyword when compared case-insensitively. -/
theorem keyword_match_invariants (req : AnalysisRequest) (o : ModelOracle)
    (r : StructuredAnalysis) (h : (runAnalysis req o).1 = .ok r) :
    (∀ m ∈ r.keywordMatches, 1 ≤ m.frequency) ∧
    (r.keywordMatches.map (fun m => lowerKey m.keyword)).Nodup ∧
    (∀ m ∈ r.keywordMatches, ∀ k ∈ r.missingKeywords,
      lowerKey m.keyword ≠ lowerKey k) := by
  obtain ⟨hk, hm⟩ := runAnalysis_ok_keywords h
  rw [hk, hm]
  refine ⟨?_, ?_, ?_⟩
  · intro m hmem
    obtain ⟨-, hfreq, hpos⟩ := mem_keywordMatchesFor hmem
    omega
  · have hmapeq :
        (keywordMatchesFor req.resumeText req.jobTarget).map (fun m => lowerKey m.keyword) =
        (keywordMatchesFor req.resumeText req.jobTarget).map (fun m => m.keyword) := by
      apply List.map_congr_left
      intro m hmem
      exact corpus_lowerKey_fixed _ _ (mem_keywordMatchesFor hmem).1
    rw [hmapeq, keywordMatchesFor_map_keyword]
    exact List.Nodup.filter _ (corpus_nodup req.jobTarget)
  · intro m hmem k hkmem
    cases hjt : req.jobTarget with
    | none =>
      rw [hjt] at hkmem
      simp [missingKeywordsFor] at hkmem
    | some j =>
      rw [hjt] at hmem hkmem
      obtain ⟨hc, -, hpos⟩ := mem_keywordMatchesFor hmem
      obtain ⟨hc', hz⟩ := mem_missingKeywordsFor hkmem
      rw [corpus_lowerKey_fixed (some j) _ hc, corpus_lowerKey_fixed (some j) k hc']
      intro heq
      rw [heq] at hpos
      omega

/-- Witness for C3 at a concrete job-targeted request whose result has both
matched and missing keywords. -/
theorem keyword_match_invariants_witness :
    (∀ m ∈ (resultOf jobRequest sampleOracle).keywordMatches, 1 ≤ m.frequency) ∧
    ((resultOf jobRequest sampleOracle).keywordMatches.map
      (fun m => lowerKey m.keyword)).Nodup ∧
    (∀ m ∈ (resultOf jobRequest sampleOracle).keywordMatches,
      ∀ k ∈ (resultOf jobRequest sampleOracle).missingKeywords,
        lowerKey m.keyword ≠ lowerKey k) :=
  keyword_match_invariants jobRequest sampleOracle (resultOf jobRequest sampleOracle) rfl

lemma mem_filter_priority {l : List Recommendation} {p : Priority} {r : Recommendation}
    (h : r ∈ l.filter (fun r => decide (r.priority = p))) : r.priority = p :=
  of_decide_eq_true (List.mem_filter.1 h).2

lemma pairwise_rank_of_const {l : List Recommendation} {p : Priority}
    (h : ∀ r ∈ l, r.priority = p) :
    List.Pairwise (fun a b => priorityRank b.priority ≤ priorityRank a.priority) l :=
  List.pairwise_of_forall_mem_list fun a ha b hb => by
    rw [h a ha, h b hb]

lemma sortRecommendations_sorted (l : List Recommendation) :
    List.Pairwise (fun a b => priorityRank b.priority ≤ priorityRank a.priority)
      (sortRecommendations l) := by
  unfold sortRecommendations
  rw [List.pairwise_append]
  refine ⟨?_, pairwise_rank_of_const (fun r hr => mem_filter_priority hr), ?_⟩
  · rw [List.pairwise_append]
    refine ⟨pairwise_rank_of_const (fun r hr => mem_filter_priority hr),
      pairwise_rank_of_const (fun r hr => mem_filter_priority hr), ?_⟩
    intro a ha b hb
    rw [mem_filter_priority ha, mem_filter_priority hb]
    decide
  · intro a ha b hb
    rcases List.mem_append.1 ha with ha | ha
    · rw [mem_filter_priority ha, mem_filter_priority hb]
      decide
    · rw [mem_filter_priority ha, mem_filter_priority hb]
      decide

lemma aggregate_recommendations (a : StructuredAnalysis) :
    (aggregate a).recommendations = a.recommendations := by
  unfold aggregate
  split
  · rfl
  · split
    · rfl
    · rfl

lemma runAnalysis_ok_recommendations {req : AnalysisRequest} {o : ModelOracle}
    {r : StructuredAnalysis} (h : (runAnalysis req o).1 = .ok r) :
    ∃ l, r.recommendations = sortRecommendations l := by
  obtain ⟨raw1, -, hcase⟩ := runAnalysis_ok_shape h
  rcases hcase with rfl | ⟨raw2, -, rfl⟩
  · refine ⟨(clampAnalysis raw1).recommendations, ?_⟩
    show (validateStage raw1).recommendations = _
    unfold validateStage
    rw [aggregate_recommendations]
  · refine ⟨(clampAnalysis raw2).recommendations, ?_⟩
    show (validateStage raw2).recommendations = _
    unfold validateStage
    rw [aggregate_recommendations]

/-- C8: in every produced result the recommendations list carries priorities
from the set high, medium, low and is ordered by priority descending -- all
high entries precede all medium entries, which precede all low entries. -/
theorem recommendations_priority_descending (req : AnalysisRequest) (o : ModelOracle)
    (r : StructuredAnalysis) (h : (runAnalysis req o).1 = .ok r) :
    (∀ rec ∈ r.recommendations,
        rec.priority = .high ∨ rec.priority = .medium ∨ rec.priority = .low) ∧
    List.Pairwise (fun a b => priorityRank b.priority ≤ priorityRank a.priority)
      r.recommendations := by
  obtain ⟨l, hl⟩ := runAnalysis_ok_recommendations h
  rw [hl]
  refine ⟨?_, sortRecommendations_sorted l⟩
  intro rec _
  cases rec.priority with
  | high => exact Or.inl rfl
  | medium => exact Or.inr (Or.inl rfl)
  | low => exact Or.inr (Or.inr rfl)

/-- Witness for C8 at a run whose stage-1 response lists a low-priority
recommendation before a high-priority one. -/
theorem recommendations_priority_descending_witness :
    (∀ rec ∈ (resultOf genericRequest stage2FailOracle).recommendations,
        rec.priority = .high ∨ rec.priority = .medium ∨ rec.priority = .low) ∧
    List.Pairwise (fun a b => priorityRank b.priority ≤ priorityRank a.priority)
      (resultOf genericRequest stage2FailOracle).recommendations :=
  recommendations_priority_descending genericRequest stage2FailOracle
    (resultOf genericRequest stage2FailOracle) rfl
